import Mathlib

/-!
Verification of the Flet-finance ledger engine (`models.py`, `db.py`,
`dashboard_data.py`) against its natural-language specification.

Shallow embedding conventions:
* Python floats carrying monetary values are modelled as rationals (`Money`);
  the code only adds, subtracts, negates and compares them.
* Python object mutation is modelled by returning the updated value.
* Python `dict` lookups (`accounts.get(id)`) are modelled as functions
  `String → Option Account`; mutating an account object inside the dict is
  modelled by a pointwise map update.
* Python truthiness of id fields (`if self.from_account_id:`) is `idTruthy`:
  `None` and the empty string are falsy.
* A Python method that can `raise` is modelled with `Except`; the state it
  would have mutated is returned alongside, unchanged on the error path,
  mirroring the fact that in the source every `raise` happens before any
  mutation.
-/

namespace FletFinance

/-- Monetary amounts (Python `float` in the source is modelled as `ℚ`). -/
abbrev Money := ℚ

/-- Calendar dates (`datetime.date` in the source).  The source compares dates
both as Python `date` objects and as ISO `YYYY-MM-DD` strings; for four-digit
years the two orders agree and are the lexicographic order on
(year, month, day). -/
structure Date where
  year : Int
  month : Nat
  day : Nat
deriving DecidableEq

/-- Date comparison `d ≤ e` (Python `date.__le__`, and ISO-string `<=` used by
the SQL filters in `db.py`). -/
def Date.le (d e : Date) : Bool :=
  decide (d.year < e.year ∨ (d.year = e.year ∧
    (d.month < e.month ∨ (d.month = e.month ∧ d.day ≤ e.day))))

/-- Gregorian leap year test (used by `dateutil`'s calendar arithmetic). -/
def isLeapYear (y : Int) : Bool :=
  (y % 4 == 0 && y % 100 != 0) || y % 400 == 0

/-- Number of days in a month of a given year. -/
def daysInMonth (y : Int) (m : Nat) : Nat :=
  if m = 2 then (if isLeapYear y then 29 else 28)
  else if m = 4 ∨ m = 6 ∨ m = 9 ∨ m = 11 then 30
  else 31

/-- `date + relativedelta(months=n)`: calendar month arithmetic with the day
clamped to the end of the target month (dateutil semantics). -/
def Date.addMonths (d : Date) (n : Nat) : Date :=
  let t := d.month - 1 + n
  let y := d.year + (t / 12 : Nat)
  let m := t % 12 + 1
  ⟨y, m, min d.day (daysInMonth y m)⟩

/-- `date + relativedelta(years=n)`: calendar year arithmetic with the day
clamped (Feb 29 maps to Feb 28 in a non-leap target year). -/
def Date.addYears (d : Date) (n : Nat) : Date :=
  ⟨d.year + n, d.month, min d.day (daysInMonth (d.year + n) d.month)⟩

/-- Serial day number of a civil date (days since 1970-01-01, the standard
civil-from-days construction); used to model `timedelta(days=n)`. -/
def Date.toDayNumber (d : Date) : Int :=
  let y : Int := if d.month ≤ 2 then d.year - 1 else d.year
  let m : Int := d.month
  let era : Int := Int.fdiv y 400
  let yoe : Int := y - era * 400
  let doy : Int := (153 * (if d.month ≤ 2 then m + 9 else m - 3) + 2) / 5 + (d.day : Int) - 1
  let doe : Int := yoe * 365 + yoe / 4 - yoe / 100 + doy
  era * 146097 + doe - 719468

/-- Civil date of a serial day number (inverse of `Date.toDayNumber`). -/
def Date.ofDayNumber (z : Int) : Date :=
  let zs : Int := z + 719468
  let era : Int := Int.fdiv zs 146097
  let doe : Nat := (zs - era * 146097).toNat
  let yoe : Nat := (doe - doe / 1460 + doe / 36524 - doe / 146096) / 365
  let doy : Nat := doe - (365 * yoe + yoe / 4 - yoe / 100)
  let mp : Nat := (5 * doy + 2) / 153
  let d : Nat := doy - (153 * mp + 2) / 5 + 1
  let m : Nat := if mp < 10 then mp + 3 else mp - 9
  ⟨(yoe : Int) + era * 400 + (if m ≤ 2 then 1 else 0), m, d⟩

/-- `d - timedelta(days=n)`. -/
def Date.subDays (d : Date) (n : Nat) : Date :=
  Date.ofDayNumber (d.toDayNumber - n)

/-- Python truthiness of an optional id string: `None` and `""` are falsy. -/
def idTruthy : Option String → Bool
  | none => false
  | some s => s ≠ ""

/-- `Account` (models.py lines 11-84). -/
structure Account where
  id : String
  name : String
  account_type : String
  currency : String
  balance : Money
  credit_limit : Money
  is_savings : Bool
deriving DecidableEq

/-- `Account.deposit` (models.py lines 22-24): unconditionally add funds. -/
def Account.deposit (a : Account) (amount : Money) : Account :=
  { a with balance := a.balance + amount }

/-- `Account.withdraw` (models.py lines 26-43).  Returns the Python boolean
result together with the (possibly) updated account. -/
def Account.withdraw (a : Account) (amount : Money) : Bool × Account :=
  if a.account_type = "credit" then
    if -a.credit_limit ≤ a.balance - amount then
      (true, { a with balance := a.balance - amount })
    else (false, a)
  else if a.account_type = "savings" then
    if amount ≤ a.balance then
      (true, { a with balance := a.balance - amount })
    else (false, a)
  else
    (true, { a with balance := a.balance - amount })

/-- `Account.get_available_balance` (models.py lines 45-52). -/
def Account.get_available_balance (a : Account) : Money :=
  if a.account_type = "credit" then a.balance + a.credit_limit
  else if a.account_type = "debit" ∧ a.balance < 0 then 0
  else a.balance

/-- The `accounts` dict passed to `Transaction.execute`: id → account. -/
def AccountMap := String → Option Account

/-- Pointwise update of an account map: models in-place mutation of the
account object stored in the Python dict. -/
def AccountMap.set (m : AccountMap) (k : String) (a : Account) : AccountMap :=
  fun s => if s = k then some a else m s

/-- `Transaction` (models.py lines 87-134).  The `uuid4` id generated by the
constructor is modelled as `""` (its value never influences behaviour). -/
structure Transaction where
  id : String
  date : Date
  amount : Money
  description : String
  transaction_type : String
  from_account_id : Option String
  to_account_id : Option String
  status : String
  category : Option String
deriving DecidableEq

/-- Result of `Transaction.execute`: the returned boolean, the transaction
(whose `status` the method may mutate) and the account map (whose entries the
method may mutate). -/
structure ExecResult where
  ok : Bool
  tx : Transaction
  accounts : AccountMap

/-- `Transaction.execute` (models.py lines 102-134), translated branch by
branch.  In the transfer branch the source looks up both accounts before
calling `withdraw` (short-circuit `and`), deposits into the destination only
after a successful withdraw, and the deposit reads the object stored in the
dict — so when `from_account_id = to_account_id` the deposit sees the
withdrawn balance, which the map update models. -/
def Transaction.execute (t : Transaction) (accounts : AccountMap) : ExecResult :=
  if t.status ≠ "pending" then ⟨false, t, accounts⟩
  else if t.transaction_type = "transfer" ∧ idTruthy t.from_account_id ∧ idTruthy t.to_account_id then
    match t.from_account_id, t.to_account_id with
    | some fid, some tid =>
      match accounts fid, accounts tid with
      | some fa, some _ =>
        if (fa.withdraw t.amount).1 then
          match AccountMap.set accounts fid (fa.withdraw t.amount).2 tid with
          | some ta =>
            ⟨true, { t with status := "completed" },
             AccountMap.set (AccountMap.set accounts fid (fa.withdraw t.amount).2) tid
               (ta.deposit t.amount)⟩
          | none => ⟨false, t, accounts⟩
        else ⟨false, t, accounts⟩
      | _, _ => ⟨false, t, accounts⟩
    | _, _ => ⟨false, t, accounts⟩
  else if t.transaction_type = "spending" ∧ idTruthy t.from_account_id then
    match t.from_account_id with
    | some fid =>
      match accounts fid with
      | some fa =>
        if (fa.withdraw t.amount).1 then
          ⟨true, { t with status := "completed" },
           AccountMap.set accounts fid (fa.withdraw t.amount).2⟩
        else ⟨false, t, accounts⟩
      | none => ⟨false, t, accounts⟩
    | none => ⟨false, t, accounts⟩
  else if t.transaction_type = "income" ∧ idTruthy t.to_account_id then
    match t.to_account_id with
    | some tid =>
      match accounts tid with
      | some ta => ⟨true, { t with status := "completed" }, AccountMap.set accounts tid (ta.deposit t.amount)⟩
      | none => ⟨false, t, accounts⟩
    | none => ⟨false, t, accounts⟩
  else if t.transaction_type = "adjustment" ∧ (idTruthy t.from_account_id ∨ idTruthy t.to_account_id) then
    ⟨true, { t with status := "completed" }, accounts⟩
  else ⟨false, t, accounts⟩

/-- One entry of `Debt.payment_history`: `{date, amount, notes}` (dates are
stored as ISO strings in the source; the `Date` value carries the same
information). -/
structure PaymentRecord where
  date : Date
  amount : Money
  notes : String
deriving DecidableEq

/-- `Debt` (models.py lines 166-329). -/
structure Debt where
  id : String
  description : String
  amount : Money
  due_date : Date
  is_receivable : Bool
  linked_account_id : Option String
  status : String
  currency : String
  payment_history : List PaymentRecord
deriving DecidableEq

/-- `Debt.get_paid_amount` (models.py lines 182-186). -/
def Debt.get_paid_amount (d : Debt) : Money :=
  if d.payment_history = [] then 0
  else (d.payment_history.map PaymentRecord.amount).sum

/-- `Debt.get_remaining_amount` (models.py lines 188-190). -/
def Debt.get_remaining_amount (d : Debt) : Money :=
  d.amount - d.get_paid_amount

/-- `Debt.make_partial_payment` (models.py lines 192-245).  The pair carries
the debt state after the call and the Python result: `Except.error msg`
models `raise ValueError(msg)` (in the source every raise precedes any
mutation, so the debt component is the unchanged input there), `Except.ok
none` models `return None`, and `Except.ok (some tx)` models returning the
new pending transaction.  The default `transaction_date = datetime.now()` is
modelled by passing the date explicitly. -/
def Debt.makePartialPayment (d : Debt) (amount : Money) (transaction_date : Date)
    (notes : String) : Debt × Except String (Option Transaction) :=
  if d.status = "paid" then (d, Except.ok none)
  else if amount ≤ 0 then (d, Except.error "Payment amount must be positive")
  else if d.get_remaining_amount < amount then
    (d, Except.error "Payment amount exceeds remaining amount")
  else
    let txOpt : Option Transaction :=
      if d.is_receivable = true ∧ idTruthy d.linked_account_id = true then
        some { id := "", date := transaction_date, amount := amount,
               description := "Received partial payment for: " ++ d.description,
               transaction_type := "income", from_account_id := none,
               to_account_id := d.linked_account_id, status := "pending", category := none }
      else if d.is_receivable = false ∧ idTruthy d.linked_account_id = true then
        some { id := "", date := transaction_date, amount := amount,
               description := "Made partial payment for: " ++ d.description,
               transaction_type := "spending", from_account_id := d.linked_account_id,
               to_account_id := none, status := "pending", category := none }
      else none
    match txOpt with
    | none => (d, Except.ok none)
    | some tx =>
      let d1 : Debt :=
        { d with payment_history := d.payment_history ++ [⟨transaction_date, amount, notes⟩] }
      let paid := d1.get_paid_amount
      let d2 : Debt :=
        { d1 with status := if |paid - d.amount| < 1 / 100 then "paid" else "partial" }
      (d2, Except.ok (some tx))

/-- `Subscription` (models.py lines 332-409). -/
structure Subscription where
  id : String
  name : String
  amount : Money
  frequency : String
  next_payment_date : Date
  linked_account_id : Option String
  status : String
  currency : String
  category : Option String
deriving DecidableEq

/-- `Subscription.generate_pending_transaction` (models.py lines 347-362). -/
def Subscription.generate_pending_transaction (s : Subscription) : Option Transaction :=
  if s.status ≠ "active" ∨ idTruthy s.linked_account_id = false then none
  else
    some { id := "", date := s.next_payment_date, amount := s.amount,
           description := "Subscription: " ++ s.name, transaction_type := "spending",
           from_account_id := s.linked_account_id, to_account_id := none,
           status := "pending", category := s.category }

/-- `Subscription.calculate_next_payment_date` (models.py lines 364-380),
returning the updated subscription. -/
def Subscription.calculate_next_payment_date (s : Subscription) (after_payment : Bool) :
    Subscription :=
  if after_payment = false then s
  else if s.frequency = "monthly" then
    { s with next_payment_date := s.next_payment_date.addMonths 1 }
  else if s.frequency = "quarterly" then
    { s with next_payment_date := s.next_payment_date.addMonths 3 }
  else if s.frequency = "yearly" then
    { s with next_payment_date := s.next_payment_date.addYears 1 }
  else
    { s with next_payment_date := s.next_payment_date.addMonths 1 }

/-- The SQL filter of the billing sweep (db.py lines 626-629):
`status = 'active' AND next_payment_date <= today`, ISO-string comparison. -/
def subscriptionDue (today : Date) (s : Subscription) : Bool :=
  (s.status = "active" : Bool) && Date.le s.next_payment_date today

/-- Body of the sweep loop for one subscription (db.py lines 636-642): if
`generate_pending_transaction` returns a transaction, it is persisted and the
subscription is advanced and persisted; otherwise nothing happens. -/
def sweepOne (s : Subscription) : Option Transaction × Subscription :=
  match s.generate_pending_transaction with
  | none => (none, s)
  | some t => (some t, s.calculate_next_payment_date true)

/-- `Database.generate_pending_subscription_transactions` (db.py lines
617-645) over the store's subscription table, modelled as a list.  Returns
the generated transactions and the table after the sweep's saves (saves key
on id, so only swept rows change). -/
def generate_pending_subscription_transactions (today : Date) (subs : List Subscription) :
    List Transaction × List Subscription :=
  ((subs.filter (subscriptionDue today)).filterMap (fun s => (sweepOne s).1),
   subs.map (fun s => if subscriptionDue today s then (sweepOne s).2 else s))

/-- Modelled from the spec: `CurrencyConverter.convert_to_chf` is imported by
`db.py` from `models.py` but its definition is absent from the repository
snapshot.  Spec §4.1 describes it as a static table-driven conversion of
amounts to CHF; the rate table is a parameter here and conversion multiplies
by the currency's rate. -/
def convert_to_chf (rates : String → Money) (amount : Money) (currency : String) : Money :=
  amount * rates currency

/-- Loop body of `Database.get_liquidity` (db.py lines 498-513) for one
account and a running total. -/
def liquidityStep (rates : String → Money) (liq : Money) (a : Account) : Money :=
  if a.account_type = "credit" ∧ a.balance < 0 then liq
  else if a.is_savings = true then liq
  else
    let v : Money :=
      if a.currency = "CHF" then a.get_available_balance
      else convert_to_chf rates a.get_available_balance a.currency
    liq + (if 0 < v then v else 0)

/-- `Database.get_liquidity` (db.py lines 489-515) over the store's account
table, modelled as a list. -/
def get_liquidity (rates : String → Money) (accounts : List Account) : Money :=
  if accounts = [] then 0
  else accounts.foldl (liquidityStep rates) 0

/-- The per-day transaction bucket of `get_liquidity_trend` (dashboard_data.py
lines 59-70): income adds, spending subtracts, anything else (transfers)
contributes zero.  The Python `defaultdict` together with the
`past_date_str in daily_transactions` guard behaves exactly like this total
function with default 0. -/
def dailyDelta (txs : List Transaction) (d : Date) : Money :=
  (txs.map (fun t =>
    if t.date = d then
      if t.transaction_type = "income" then t.amount
      else if t.transaction_type = "spending" then -t.amount
      else 0
    else 0)).sum

/-- The cosmetic per-day offset of dashboard_data.py line 84:
`(i % 5 - 2) * 10`. -/
def trendVariation (i : Nat) : Money :=
  ((i % 5 : Nat) - 2 : Int) * 10

/-- The backward loop of `get_liquidity_trend` (dashboard_data.py lines
73-90): `fuel` counts the remaining iterations, `i` is the Python loop index
and `hist` the running `historical_liquidity`. -/
def trendGo (today : Date) (delta : Date → Money) : Nat → Nat → Money → List (Date × Money)
  | 0, _, _ => []
  | fuel + 1, i, hist =>
    let pd := today.subDays i
    let hist1 := hist - delta pd
    (pd, max 0 (hist1 + trendVariation i)) :: trendGo today delta fuel (i + 1) hist1

/-- The final ascending sort by date (dashboard_data.py lines 51 and 93). -/
def sortByDate (l : List (Date × Money)) : List (Date × Money) :=
  l.mergeSort (fun p q => Date.le p.1 q.1)

/-- `DashboardDataProvider.get_liquidity_trend` (dashboard_data.py lines
20-94).  `current_liquidity` stands for `db.get_liquidity()` and `txs` for
`db.get_all_transactions(status="completed", start_date=today-days,
end_date=today)`; each emitted point is (date, value) — the redundant
`"day"` display label is derived from the date and not modelled. -/
def get_liquidity_trend (today : Date) (current_liquidity : Money)
    (txs : List Transaction) (days : Nat) : List (Date × Money) :=
  if txs.length < 5 then
    sortByDate [(today, current_liquidity), (today.subDays (days - 1), 0)]
  else
    sortByDate ((today, current_liquidity) ::
      trendGo today (dailyDelta txs) (days - 1) 1 current_liquidity)

/-! ## Theorems -/

/-- Guard describing when the transfer branch of `Transaction.execute` can go
through: both id fields truthy (non-null, non-empty), both accounts
resolvable in the lookup, and the source account's withdraw succeeds.  Its
negation is the failure premise of claim C1. -/
def transferReady (t : Transaction) (m : AccountMap) : Bool :=
  match t.from_account_id, t.to_account_id with
  | some fid, some tid =>
    (fid ≠ "" : Bool) && (tid ≠ "" : Bool) &&
      (match m fid, m tid with
       | some fa, some _ => (fa.withdraw t.amount).1
       | _, _ => false)
  | _, _ => false

theorem exec_ok_status (t : Transaction) (m : AccountMap) :
    (Transaction.execute t m).ok = true → (Transaction.execute t m).tx.status = "completed" := by
  unfold Transaction.execute
  (repeat' split) <;> intro h <;> first | rfl | (simp at h)

theorem execute_non_pending (t : Transaction) (m : AccountMap) (h : t.status ≠ "pending") :
    Transaction.execute t m = ⟨false, t, m⟩ := by
  unfold Transaction.execute
  rw [if_pos h]

/-- Claim C1: on a pending transfer, if the source withdraw fails or either
account is unresolvable (`transferReady` is false), `execute` returns false,
leaves the transaction pending and leaves every account — source and
destination included — untouched: the result is literally `⟨false, t, m⟩`.
In particular no deposit ever happens without a successful withdraw. -/
theorem transfer_failure_is_noop (t : Transaction) (m : AccountMap)
    (hp : t.status = "pending") (ht : t.transaction_type = "transfer")
    (hfail : transferReady t m = false) :
    Transaction.execute t m = ⟨false, t, m⟩ := by
  unfold Transaction.execute
  rw [if_neg (by simp [hp])]
  unfold transferReady at hfail
  by_cases h2 : t.transaction_type = "transfer" ∧ idTruthy t.from_account_id ∧ idTruthy t.to_account_id
  · rw [if_pos h2]
    obtain ⟨-, hf, hto⟩ := h2
    split
    · rename_i fid tid hfa hta
      rw [hfa] at hf
      rw [hta] at hto
      simp only [idTruthy] at hf hto
      rw [hfa, hta] at hfail
      simp only [hf, hto, Bool.true_and] at hfail
      split
      · rename_i fa ta hmf hmt
        rw [hmf, hmt] at hfail
        simp only at hfail
        rw [if_neg (by simp [hfail])]
      · rfl
    · rfl
  · rw [if_neg h2]
    simp [ht]

def dW : Date := ⟨2024, 1, 1⟩

def acctSavingsW : Account :=
  { id := "A", name := "sav", account_type := "savings", currency := "CHF",
    balance := 100, credit_limit := 0, is_savings := true }

def acctDebitW : Account :=
  { id := "B", name := "deb", account_type := "debit", currency := "CHF",
    balance := 0, credit_limit := 0, is_savings := false }

def tC1 : Transaction :=
  { id := "t1", date := dW, amount := 500, description := "", transaction_type := "transfer",
    from_account_id := some "A", to_account_id := some "B", status := "pending", category := none }

def mC1 : AccountMap :=
  fun s => if s = "A" then some acctSavingsW else if s = "B" then some acctDebitW else none

theorem transfer_failure_is_noop_witness :
    tC1.status = "pending" ∧ tC1.transaction_type = "transfer" ∧
    transferReady tC1 mC1 = false ∧ Transaction.execute tC1 mC1 = ⟨false, tC1, mC1⟩ :=
  ⟨rfl, rfl, by with_unfolding_all rfl,
   transfer_failure_is_noop tC1 mC1 rfl rfl (by with_unfolding_all rfl)⟩

/-- Claim C2: `execute` on a non-pending transaction is a no-op returning
false, and after a successful `execute` (which set status to completed) a
second `execute` on the resulting transaction and accounts returns false and
changes nothing, so the balance effect is applied exactly once. -/
theorem execute_reexecution_guard (t : Transaction) (m : AccountMap) :
    (t.status ≠ "pending" → Transaction.execute t m = ⟨false, t, m⟩) ∧
    ((Transaction.execute t m).ok = true →
      Transaction.execute (Transaction.execute t m).tx (Transaction.execute t m).accounts =
        ⟨false, (Transaction.execute t m).tx, (Transaction.execute t m).accounts⟩) := by
  refine ⟨fun h => execute_non_pending t m h, fun h => execute_non_pending _ _ ?_⟩
  rw [exec_ok_status t m h]
  decide

def tC2 : Transaction :=
  { id := "t2", date := dW, amount := 5, description := "", transaction_type := "income",
    from_account_id := none, to_account_id := some "B", status := "pending", category := none }

def mC2 : AccountMap := fun s => if s = "B" then some acctDebitW else none

theorem execute_reexecution_guard_witness :
    Transaction.execute { tC2 with status := "completed" } mC2 =
      ⟨false, { tC2 with status := "completed" }, mC2⟩ ∧
    (Transaction.execute tC2 mC2).ok = true ∧
    Transaction.execute (Transaction.execute tC2 mC2).tx (Transaction.execute tC2 mC2).accounts =
      ⟨false, (Transaction.execute tC2 mC2).tx, (Transaction.execute tC2 mC2).accounts⟩ :=
  ⟨(execute_reexecution_guard { tC2 with status := "completed" } mC2).1 (by decide),
   by decide,
   (execute_reexecution_guard tC2 mC2).2 (by decide)⟩

theorem withdraw_preserves_type_limit (a : Account) (x : Money) :
    ((a.withdraw x).2).account_type = a.account_type ∧
      ((a.withdraw x).2).credit_limit = a.credit_limit := by
  unfold Account.withdraw
  constructor <;> (repeat' split) <;> rfl

theorem withdraw_credit_lb (a : Account) (x : Money) (hc : a.account_type = "credit")
    (h : -a.credit_limit ≤ a.balance) : -a.credit_limit ≤ ((a.withdraw x).2).balance := by
  unfold Account.withdraw
  rw [if_pos hc]
  split
  · rename_i hcond
    simpa using hcond
  · simpa using h

theorem withdraw_savings_lb (a : Account) (x : Money) (hs : a.account_type = "savings")
    (h : 0 ≤ a.balance) : 0 ≤ ((a.withdraw x).2).balance := by
  unfold Account.withdraw
  rw [if_neg (by rw [hs]; decide), if_pos hs]
  split
  · rename_i hcond
    simp only
    linarith
  · simpa using h

/-- `withdrawSeq a amts` is the account after the sequence of
`Account.withdraw` calls with the given amounts. -/
def withdrawSeq (a : Account) (amts : List Money) : Account :=
  amts.foldl (fun b x => (b.withdraw x).2) a

theorem withdrawSeq_credit (amts : List Money) :
    ∀ a : Account, a.account_type = "credit" → -a.credit_limit ≤ a.balance →
      -a.credit_limit ≤ (withdrawSeq a amts).balance := by
  induction amts with
  | nil => exact fun a _ h2 => h2
  | cons x xs ih =>
    intro a h1 h2
    have hp := withdraw_preserves_type_limit a x
    have h3 := ih ((a.withdraw x).2) (by rw [hp.1]; exact h1)
      (by rw [hp.2]; exact withdraw_credit_lb a x h1 h2)
    rw [hp.2] at h3
    exact h3

theorem withdrawSeq_savings (amts : List Money) :
    ∀ a : Account, a.account_type = "savings" → 0 ≤ a.balance →
      0 ≤ (withdrawSeq a amts).balance := by
  induction amts with
  | nil => exact fun a _ h2 => h2
  | cons x xs ih =>
    intro a h1 h2
    exact ih ((a.withdraw x).2) (by rw [(withdraw_preserves_type_limit a x).1]; exact h1)
      (withdraw_savings_lb a x h1 h2)

theorem withdraw_fail_frame (a : Account) (x : Money) :
    (a.withdraw x).1 = false → (a.withdraw x).2 = a := by
  unfold Account.withdraw
  (repeat' split) <;> intro h <;> first | rfl | (simp at h)

/-- Claim C3: a credit account starting with `balance ≥ -credit_limit` keeps
that bound through any sequence of withdraws; a savings account starting
with `balance ≥ 0` keeps `balance ≥ 0`; and a withdraw that returns false
leaves the account exactly unchanged (rejected, not clamped). -/
theorem withdraw_invariants (a : Account) (amts : List Money) (x : Money) :
    (a.account_type = "credit" → -a.credit_limit ≤ a.balance →
      -a.credit_limit ≤ (withdrawSeq a amts).balance) ∧
    (a.account_type = "savings" → 0 ≤ a.balance → 0 ≤ (withdrawSeq a amts).balance) ∧
    ((a.withdraw x).1 = false → (a.withdraw x).2 = a) :=
  ⟨fun h1 h2 => withdrawSeq_credit amts a h1 h2,
   fun h1 h2 => withdrawSeq_savings amts a h1 h2,
   withdraw_fail_frame a x⟩

def acctCreditW : Account :=
  { id := "C", name := "cc", account_type := "credit", currency := "CHF",
    balance := 10, credit_limit := 100, is_savings := false }

theorem withdraw_invariants_witness :
    (-acctCreditW.credit_limit ≤ (withdrawSeq acctCreditW [30, 200, 5]).balance) ∧
    (0 ≤ (withdrawSeq acctSavingsW [30, 200]).balance) ∧
    ((acctCreditW.withdraw 200).1 = false ∧ (acctCreditW.withdraw 200).2 = acctCreditW) :=
  ⟨(withdraw_invariants acctCreditW [30, 200, 5] 200).1 rfl
     (of_decide_eq_true (by with_unfolding_all rfl)),
   (withdraw_invariants acctSavingsW [30, 200] 200).2.1 rfl
     (of_decide_eq_true (by with_unfolding_all rfl)),
   by with_unfolding_all rfl,
   (withdraw_invariants acctCreditW [] 200).2.2 (by with_unfolding_all rfl)⟩

/-- Claim C9: a pending adjustment transaction with at least one (truthy)
account reference executes successfully: it returns true, flips the status
to completed, and neither reads nor writes any account balance — the account
map is returned untouched even if the referenced ids resolve to nothing. -/
theorem adjustment_executes_without_accounts (t : Transaction) (m : AccountMap)
    (hp : t.status = "pending") (ht : t.transaction_type = "adjustment")
    (hid : (idTruthy t.from_account_id || idTruthy t.to_account_id) = true) :
    Transaction.execute t m = ⟨true, { t with status := "completed" }, m⟩ := by
  unfold Transaction.execute
  rw [if_neg (by simp [hp])]
  rw [if_neg (fun hc => by rw [ht] at hc; exact absurd hc.1 (by decide))]
  rw [if_neg (fun hc => by rw [ht] at hc; exact absurd hc.1 (by decide))]
  rw [if_neg (fun hc => by rw [ht] at hc; exact absurd hc.1 (by decide))]
  rw [if_pos ⟨ht, by simpa using hid⟩]

def tC9 : Transaction :=
  { id := "t9", date := dW, amount := 7, description := "", transaction_type := "adjustment",
    from_account_id := some "ghost", to_account_id := none, status := "pending", category := none }

def mC9 : AccountMap := fun _ => none

theorem adjustment_executes_without_accounts_witness :
    mC9 "ghost" = none ∧
    Transaction.execute tC9 mC9 = ⟨true, { tC9 with status := "completed" }, mC9⟩ :=
  ⟨rfl, adjustment_executes_without_accounts tC9 mC9 rfl rfl (by decide)⟩

theorem get_paid_amount_def (d : Debt) :
    d.get_paid_amount = (d.payment_history.map PaymentRecord.amount).sum := by
  unfold Debt.get_paid_amount
  split
  · rename_i h
    rw [h]
    rfl
  · rfl

/-- Claim C4 (amended): `make_partial_payment` on a debt whose status is
`paid` does NOT raise — it returns `None` with no state change; it raises
`ValueError` when the amount is ≤ 0 and (for positive amounts) when the
amount exceeds the remaining balance, and on every one of these rejections
the debt is completely unchanged. -/
theorem makePartialPayment_rejections (d : Debt) (amount : Money) (dt : Date) (notes : String) :
    (d.status = "paid" → d.makePartialPayment amount dt notes = (d, Except.ok none)) ∧
    (d.status ≠ "paid" → amount ≤ 0 →
      d.makePartialPayment amount dt notes = (d, Except.error "Payment amount must be positive")) ∧
    (d.status ≠ "paid" → 0 < amount → d.get_remaining_amount < amount →
      d.makePartialPayment amount dt notes =
        (d, Except.error "Payment amount exceeds remaining amount")) := by
  refine ⟨fun h => ?_, fun h1 h2 => ?_, fun h1 h2 h3 => ?_⟩
  · unfold Debt.makePartialPayment
    rw [if_pos h]
  · unfold Debt.makePartialPayment
    rw [if_neg h1, if_pos h2]
  · unfold Debt.makePartialPayment
    rw [if_neg h1, if_neg (not_le.mpr h2), if_pos h3]

def debtPaidC4 : Debt :=
  { id := "d4", description := "loan", amount := 100, due_date := dW, is_receivable := false,
    linked_account_id := some "L", status := "paid", currency := "CHF",
    payment_history := [⟨dW, 100, ""⟩] }

def debtOpenC4 : Debt :=
  { id := "d4b", description := "loan", amount := 300, due_date := dW, is_receivable := false,
    linked_account_id := some "L", status := "pending", currency := "CHF",
    payment_history := [] }

/-- Counterexample to claim C4 as stated: on a debt with status `paid`,
`make_partial_payment(1)` does not raise; it returns `None` (here:
`Except.ok none`) and leaves the debt unchanged, whereas the claim says every
such call rejects by raising an error. -/
theorem makePartialPayment_paid_no_raise :
    debtPaidC4.status = "paid" ∧
    debtPaidC4.makePartialPayment 1 dW "" = (debtPaidC4, Except.ok none) :=
  ⟨rfl, by with_unfolding_all rfl⟩

theorem makePartialPayment_rejections_witness :
    debtPaidC4.makePartialPayment 2 dW "" = (debtPaidC4, Except.ok none) ∧
    debtOpenC4.makePartialPayment 0 dW "" =
      (debtOpenC4, Except.error "Payment amount must be positive") ∧
    debtOpenC4.makePartialPayment 400 dW "" =
      (debtOpenC4, Except.error "Payment amount exceeds remaining amount") :=
  ⟨(makePartialPayment_rejections debtPaidC4 2 dW "").1 rfl,
   (makePartialPayment_rejections debtOpenC4 0 dW "").2.1 (by decide) le_rfl,
   (makePartialPayment_rejections debtOpenC4 400 dW "").2.2 (by decide)
     (of_decide_eq_true (by with_unfolding_all rfl))
     (of_decide_eq_true (by with_unfolding_all rfl))⟩

/-- Claim C5 (amended): for a non-paid debt and an accepted amount
(0 < a ≤ remaining): if no linked account is set the call returns `None` and
performs NO acceptance at all (payment_history and status untouched); if a
linked account is set it appends the payment record, recomputes the status
(paid when the new paid total is within 0.01 of the debt amount, else
partial) and returns a new pending income/spending transaction of amount `a`
pointed at the linked account (income iff is_receivable). -/
theorem makePartialPayment_acceptance (d : Debt) (amount : Money) (dt : Date) (notes : String)
    (hs : d.status ≠ "paid") (h0 : 0 < amount) (hr : amount ≤ d.get_remaining_amount) :
    (idTruthy d.linked_account_id = false →
      d.makePartialPayment amount dt notes = (d, Except.ok none)) ∧
    (idTruthy d.linked_account_id = true →
      ((d.makePartialPayment amount dt notes).1.payment_history
          = d.payment_history ++ [⟨dt, amount, notes⟩]) ∧
      ((d.makePartialPayment amount dt notes).1.status
          = if |d.get_paid_amount + amount - d.amount| < 1 / 100 then "paid" else "partial") ∧
      ∃ tx : Transaction,
        (d.makePartialPayment amount dt notes).2 = Except.ok (some tx) ∧
        tx.amount = amount ∧ tx.status = "pending" ∧ tx.date = dt ∧
        tx.transaction_type = (if d.is_receivable then "income" else "spending") ∧
        (d.is_receivable = true → tx.to_account_id = d.linked_account_id ∧ tx.from_account_id = none) ∧
        (d.is_receivable = false → tx.from_account_id = d.linked_account_id ∧ tx.to_account_id = none)) := by
  unfold Debt.makePartialPayment
  rw [if_neg hs, if_neg (not_le.mpr h0), if_neg (not_lt.mpr hr)]
  constructor
  · intro hL
    cases hrecv : d.is_receivable <;> simp [hL, hrecv]
  · intro hL
    cases hrecv : d.is_receivable with
    | false =>
      rw [hL]
      refine ⟨rfl, ?_, ⟨_, rfl, rfl, rfl, rfl, rfl, by simp, fun _ => ⟨rfl, rfl⟩⟩⟩
      simp only [get_paid_amount_def, List.map_append, List.map_cons, List.map_nil,
        List.sum_append, List.sum_cons, List.sum_nil, add_zero]
      rfl
    | true =>
      rw [hL]
      refine ⟨rfl, ?_, ⟨_, rfl, rfl, rfl, rfl, rfl, fun _ => ⟨rfl, rfl⟩, by simp⟩⟩
      simp only [get_paid_amount_def, List.map_append, List.map_cons, List.map_nil,
        List.sum_append, List.sum_cons, List.sum_nil, add_zero]
      rfl

def debtNoLinkC5 : Debt :=
  { id := "d5", description := "iou", amount := 300, due_date := dW, is_receivable := false,
    linked_account_id := none, status := "pending", currency := "CHF",
    payment_history := [] }

def debtLinkC5 : Debt :=
  { id := "d5b", description := "iou", amount := 300, due_date := dW, is_receivable := true,
    linked_account_id := some "L", status := "pending", currency := "CHF",
    payment_history := [] }

/-- Counterexample to claim C5 as stated: on a pending debt with no linked
account, an in-range payment of 100 out of 300 performs no acceptance
behaviour at all — the returned debt is the unchanged input (payment_history
still empty, status still pending) — whereas the claim says the payment
record is still appended and the status recomputed. -/
theorem makePartialPayment_unlinked_frame :
    debtNoLinkC5.makePartialPayment 100 dW "" = (debtNoLinkC5, Except.ok none) ∧
    debtNoLinkC5.payment_history = [] ∧ debtNoLinkC5.status = "pending" :=
  ⟨by with_unfolding_all rfl, rfl, rfl⟩

theorem makePartialPayment_acceptance_witness :
    ((debtLinkC5.makePartialPayment 100 dW "x").1.payment_history
        = debtLinkC5.payment_history ++ [⟨dW, 100, "x"⟩]) ∧
    ((debtLinkC5.makePartialPayment 100 dW "x").1.status
        = if |debtLinkC5.get_paid_amount + 100 - debtLinkC5.amount| < 1 / 100
          then "paid" else "partial") ∧
    ∃ tx : Transaction,
      (debtLinkC5.makePartialPayment 100 dW "x").2 = Except.ok (some tx) ∧
      tx.amount = 100 ∧ tx.status = "pending" ∧ tx.date = dW ∧
      tx.transaction_type = (if debtLinkC5.is_receivable then "income" else "spending") ∧
      (debtLinkC5.is_receivable = true →
        tx.to_account_id = debtLinkC5.linked_account_id ∧ tx.from_account_id = none) ∧
      (debtLinkC5.is_receivable = false →
        tx.from_account_id = debtLinkC5.linked_account_id ∧ tx.to_account_id = none) := by
  have h2 := makePartialPayment_acceptance debtLinkC5 100 dW "x" (by decide)
    (of_decide_eq_true (by with_unfolding_all rfl))
    (of_decide_eq_true (by with_unfolding_all rfl))
  exact (h2.2 (by decide))

/-- Claim C6: a sweep over a store holding one active, linked, monthly
subscription that is due (`next_payment_date ≤ today`) generates exactly one
pending spending transaction whose amount (and date) come from the
subscription, and advances `next_payment_date` by exactly one month; and for
any store, one sweep call generates at most one transaction per
subscription. -/
theorem subscription_sweep_bills_once (today : Date) (s : Subscription)
    (ha : s.status = "active") (hl : idTruthy s.linked_account_id = true)
    (hf : s.frequency = "monthly") (hd : Date.le s.next_payment_date today = true) :
    generate_pending_subscription_transactions today [s] =
      ([{ id := "", date := s.next_payment_date, amount := s.amount,
          description := "Subscription: " ++ s.name, transaction_type := "spending",
          from_account_id := s.linked_account_id, to_account_id := none,
          status := "pending", category := s.category }],
       [{ s with next_payment_date := s.next_payment_date.addMonths 1 }]) ∧
    ∀ subs : List Subscription,
      (generate_pending_subscription_transactions today subs).1.length ≤ subs.length := by
  constructor
  · have hdue : subscriptionDue today s = true := by
      unfold subscriptionDue
      rw [ha, hd]
      rfl
    have hgen : s.generate_pending_transaction =
        some { id := "", date := s.next_payment_date, amount := s.amount,
               description := "Subscription: " ++ s.name, transaction_type := "spending",
               from_account_id := s.linked_account_id, to_account_id := none,
               status := "pending", category := s.category } := by
      unfold Subscription.generate_pending_transaction
      rw [if_neg (by simp [ha, hl])]
    have hcalc : s.calculate_next_payment_date true =
        { s with next_payment_date := s.next_payment_date.addMonths 1 } := by
      unfold Subscription.calculate_next_payment_date
      rw [if_neg (by decide), if_pos hf]
    unfold generate_pending_subscription_transactions
    simp [hdue, sweepOne, hgen, hcalc]
  · intro subs
    unfold generate_pending_subscription_transactions
    exact le_trans (List.length_filterMap_le _ _) (List.length_filter_le _ _)

def subC6 : Subscription :=
  { id := "s6", name := "gym", amount := 42, frequency := "monthly",
    next_payment_date := ⟨2024, 1, 15⟩, linked_account_id := some "acc",
    status := "active", currency := "CHF", category := none }

def todayC6 : Date := ⟨2024, 2, 1⟩

theorem subscription_sweep_bills_once_witness :
    generate_pending_subscription_transactions todayC6 [subC6] =
      ([{ id := "", date := subC6.next_payment_date, amount := subC6.amount,
          description := "Subscription: " ++ subC6.name, transaction_type := "spending",
          from_account_id := subC6.linked_account_id, to_account_id := none,
          status := "pending", category := subC6.category }],
       [{ subC6 with next_payment_date := subC6.next_payment_date.addMonths 1 }]) ∧
    Date.addMonths subC6.next_payment_date 1 = ⟨2024, 2, 15⟩ ∧
    (generate_pending_subscription_transactions todayC6 [subC6, subC6]).1.length ≤ 2 :=
  ⟨(subscription_sweep_bills_once todayC6 subC6 rfl (by decide) rfl (by decide)).1,
   by decide,
   (subscription_sweep_bills_once todayC6 subC6 rfl (by decide) rfl (by decide)).2 [subC6, subC6]⟩

/-- Claim C10: a sweep over a store holding one active subscription that is
due but has no linked account generates no transaction and leaves the
subscription — `next_payment_date` included — completely unchanged, so the
subscription is still due (`subscriptionDue` still true) on every later
sweep. -/
theorem sweep_unlinked_subscription_unchanged (today : Date) (s : Subscription)
    (ha : s.status = "active") (hd : Date.le s.next_payment_date today = true)
    (hl : idTruthy s.linked_account_id = false) :
    generate_pending_subscription_transactions today [s] = ([], [s]) ∧
    subscriptionDue today s = true := by
  have hdue : subscriptionDue today s = true := by
    unfold subscriptionDue
    rw [ha, hd]
    rfl
  have hgen : s.generate_pending_transaction = none := by
    unfold Subscription.generate_pending_transaction
    rw [if_pos (Or.inr hl)]
  refine ⟨?_, hdue⟩
  unfold generate_pending_subscription_transactions
  simp [hdue, sweepOne, hgen]

def subC10 : Subscription :=
  { id := "s10", name := "news", amount := 9, frequency := "monthly",
    next_payment_date := ⟨2024, 1, 15⟩, linked_account_id := none,
    status := "active", currency := "CHF", category := none }

theorem sweep_unlinked_subscription_unchanged_witness :
    generate_pending_subscription_transactions todayC6 [subC10] = ([], [subC10]) ∧
    subscriptionDue todayC6 subC10 = true :=
  sweep_unlinked_subscription_unchanged todayC6 subC10 rfl (by decide) rfl

/-- The CHF value the liquidity loop computes for one account. -/
def liquidityValueCHF (rates : String → Money) (a : Account) : Money :=
  if a.currency = "CHF" then a.get_available_balance
  else convert_to_chf rates a.get_available_balance a.currency

/-- Per-account contribution to `get_liquidity`, as the spec describes it. -/
def liquidityContribution (rates : String → Money) (a : Account) : Money :=
  if a.account_type = "credit" ∧ a.balance < 0 then 0
  else if a.is_savings = true then 0
  else if 0 < liquidityValueCHF rates a then liquidityValueCHF rates a else 0

/-- Per-account contribution when the account is in CHF (no conversion). -/
def liquidityContributionCHF (a : Account) : Money :=
  if a.account_type = "credit" ∧ a.balance < 0 then 0
  else if a.is_savings = true then 0
  else if 0 < a.get_available_balance then a.get_available_balance else 0

theorem liquidityStep_eq (rates : String → Money) (liq : Money) (a : Account) :
    liquidityStep rates liq a = liq + liquidityContribution rates a := by
  simp only [liquidityStep, liquidityContribution, liquidityValueCHF]
  split_ifs <;> simp

theorem foldl_liquidity (rates : String → Money) :
    ∀ (l : List Account) (c : Money),
      l.foldl (liquidityStep rates) c = c + (l.map (liquidityContribution rates)).sum := by
  intro l
  induction l with
  | nil => intro c; simp
  | cons a l ih =>
    intro c
    simp only [List.foldl_cons, List.map_cons, List.sum_cons, ih, liquidityStep_eq]
    ring

/-- Claim C7: `get_liquidity` is the sum over accounts of per-account
contributions where `is_savings` accounts contribute nothing, credit
accounts with negative balance contribute nothing, debit accounts with
negative balance contribute 0 (available balance floored at 0), and only
positive contributions are added; for an all-CHF store the sum is exact —
independent of the conversion table. -/
theorem liquidity_sum_formula (rates : String → Money) (accounts : List Account) :
    get_liquidity rates accounts = (accounts.map (liquidityContribution rates)).sum ∧
    ((∀ a ∈ accounts, a.currency = "CHF") →
      get_liquidity rates accounts = (accounts.map liquidityContributionCHF).sum) ∧
    (∀ a : Account, a.is_savings = true → liquidityContribution rates a = 0) ∧
    (∀ a : Account, a.account_type = "credit" → a.balance < 0 →
      liquidityContribution rates a = 0) ∧
    (∀ a : Account, a.account_type = "debit" → a.balance < 0 →
      liquidityContribution rates a = 0) ∧
    (∀ a : Account, 0 ≤ liquidityContribution rates a) := by
  have hmain : get_liquidity rates accounts = (accounts.map (liquidityContribution rates)).sum := by
    unfold get_liquidity
    split
    · rename_i h
      rw [h]
      simp
    · rw [foldl_liquidity]
      simp
  refine ⟨hmain, fun hchf => ?_, fun a hsav => ?_, fun a hc hneg => ?_, fun a hd hneg => ?_,
    fun a => ?_⟩
  · rw [hmain]
    congr 1
    refine List.map_congr_left fun a ha => ?_
    unfold liquidityContribution liquidityContributionCHF liquidityValueCHF
    rw [if_pos (hchf a ha)]
  · unfold liquidityContribution
    split_ifs <;> rfl
  · unfold liquidityContribution
    rw [if_pos ⟨hc, hneg⟩]
  · have hav : a.get_available_balance = 0 := by
      unfold Account.get_available_balance
      rw [if_neg (by rw [hd]; decide), if_pos ⟨hd, hneg⟩]
    have hv : liquidityValueCHF rates a = 0 := by
      unfold liquidityValueCHF convert_to_chf
      rw [hav]
      split_ifs <;> simp
    unfold liquidityContribution
    rw [hv]
    split_ifs <;> simp_all
  · unfold liquidityContribution
    split_ifs
    all_goals first | rfl | (rename_i h; exact le_of_lt h)

def ratesW : String → Money := fun c => if c = "EUR" then 95 / 100 else 1

def acctNegCreditW : Account :=
  { id := "NC", name := "nc", account_type := "credit", currency := "CHF",
    balance := -50, credit_limit := 500, is_savings := false }

def acctNegDebitW : Account :=
  { id := "ND", name := "nd", account_type := "debit", currency := "CHF",
    balance := -5, credit_limit := 0, is_savings := false }

def acctsC7 : List Account := [acctSavingsW, acctCreditW, acctDebitW, acctNegCreditW, acctNegDebitW]

theorem liquidity_sum_formula_witness :
    get_liquidity ratesW acctsC7 = (acctsC7.map (liquidityContribution ratesW)).sum ∧
    get_liquidity ratesW acctsC7 = (acctsC7.map liquidityContributionCHF).sum ∧
    liquidityContribution ratesW acctSavingsW = 0 ∧
    liquidityContribution ratesW acctNegCreditW = 0 ∧
    liquidityContribution ratesW acctNegDebitW = 0 ∧
    0 ≤ liquidityContribution ratesW acctCreditW :=
  ⟨(liquidity_sum_formula ratesW acctsC7).1,
   (liquidity_sum_formula ratesW acctsC7).2.1 (by decide),
   (liquidity_sum_formula ratesW acctsC7).2.2.1 acctSavingsW rfl,
   (liquidity_sum_formula ratesW acctsC7).2.2.2.1 acctNegCreditW rfl
     (of_decide_eq_true (by with_unfolding_all rfl)),
   (liquidity_sum_formula ratesW acctsC7).2.2.2.2.1 acctNegDebitW rfl
     (of_decide_eq_true (by with_unfolding_all rfl)),
   (liquidity_sum_formula ratesW acctsC7).2.2.2.2.2 acctCreditW⟩

/-- The spec-side running value of the backward walk: start from today's
liquidity and subtract day i's bucketed delta when stepping from day i-1 to
day i back in time. -/
def runningLiquidity (today : Date) (current : Money) (txs : List Transaction) : Nat → Money
  | 0 => current
  | i + 1 => runningLiquidity today current txs i - dailyDelta txs (today.subDays (i + 1))

/-- Running value of the loop started at offset `i` with accumulator `hist`. -/
def runFrom (today : Date) (delta : Date → Money) (hist : Money) (i : Nat) : Nat → Money
  | 0 => hist
  | k + 1 => runFrom today delta hist i k - delta (today.subDays (i + k))

theorem runFrom_shift (today : Date) (delta : Date → Money) (hist : Money) (i : Nat) :
    ∀ k, runFrom today delta hist i (k + 1)
      = runFrom today delta (hist - delta (today.subDays i)) (i + 1) k := by
  intro k
  induction k with
  | zero => simp [runFrom]
  | succ k ih =>
    have e : i + (k + 1) = i + 1 + k := by omega
    calc runFrom today delta hist i (k + 1 + 1)
        = runFrom today delta hist i (k + 1) - delta (today.subDays (i + (k + 1))) := rfl
      _ = runFrom today delta (hist - delta (today.subDays i)) (i + 1) k
            - delta (today.subDays (i + 1 + k)) := by rw [ih, e]
      _ = runFrom today delta (hist - delta (today.subDays i)) (i + 1) (k + 1) := rfl

theorem trendGo_eq_map (today : Date) (delta : Date → Money) :
    ∀ (fuel : Nat) (i : Nat) (hist : Money),
      trendGo today delta fuel i hist =
        (List.range fuel).map (fun k =>
          (today.subDays (i + k),
           max 0 (runFrom today delta hist i (k + 1) + trendVariation (i + k)))) := by
  intro fuel
  induction fuel with
  | zero => intro i hist; rfl
  | succ fuel ih =>
    intro i hist
    rw [List.range_succ_eq_map]
    rw [show trendGo today delta (fuel + 1) i hist
        = (today.subDays i,
           max 0 (hist - delta (today.subDays i) + trendVariation i)) ::
          trendGo today delta fuel (i + 1) (hist - delta (today.subDays i)) from rfl]
    rw [ih]
    simp only [List.map_cons, List.map_map]
    congr 1
    refine List.map_congr_left fun a ha => ?_
    simp only [Function.comp_apply]
    have e1 : i + 1 + a = i + (a + 1) := by omega
    rw [e1, ← runFrom_shift]

theorem runFrom_one_eq (today : Date) (txs : List Transaction) (current : Money) :
    ∀ k, runFrom today (dailyDelta txs) current 1 k = runningLiquidity today current txs k := by
  intro k
  induction k with
  | zero => rfl
  | succ k ih =>
    simp only [runFrom, runningLiquidity, ih, Nat.add_comm 1 k]

/-- Claim C8 (amended): with at least 5 completed transactions in the
window, the trend series is today's point followed (after the ascending date
sort) by one point per past day i ∈ [1, days-1] whose value is
`max 0 (runningLiquidity i + (i % 5 - 2) * 10)` — the running value walks
backward subtracting each day's bucketed delta exactly as the claim says,
but the emitted value additionally adds the cosmetic variation term
`(i % 5 - 2) * 10` before flooring at 0, and the floor applies only to the
emitted value, never to the running value itself. -/
theorem liquidity_trend_formula (today : Date) (current : Money) (txs : List Transaction)
    (days : Nat) (h5 : 5 ≤ txs.length) :
    get_liquidity_trend today current txs days =
      sortByDate ((today, current) ::
        (List.range (days - 1)).map (fun k =>
          (today.subDays (k + 1),
           max 0 (runningLiquidity today current txs (k + 1) + trendVariation (k + 1))))) := by
  unfold get_liquidity_trend
  rw [if_neg (by omega)]
  rw [trendGo_eq_map]
  congr 2
  refine List.map_congr_left fun k hk => ?_
  rw [Nat.add_comm 1 k, runFrom_one_eq]

def todayC8 : Date := ⟨2024, 3, 1⟩

def txC8 : Transaction :=
  { id := "t8", date := Date.subDays todayC8 2, amount := 1, description := "",
    transaction_type := "income", from_account_id := none, to_account_id := some "B",
    status := "completed", category := none }

def txsC8 : List Transaction := [txC8, txC8, txC8, txC8, txC8]

set_option maxRecDepth 100000 in
/-- Counterexample to claim C8 as stated: with 5 completed transactions in
the window, today's liquidity 100 and no transactions dated one day back,
the emitted value for day 1 is 90 — not the floored running value 100 the
claim dictates — because the code adds the extra term `(1 % 5 - 2) * 10 =
-10` to that day's value. -/
theorem liquidity_trend_variation_counterexample :
    5 ≤ txsC8.length ∧
    (get_liquidity_trend todayC8 100 txsC8 3).filter
        (fun p => p.1 = Date.subDays todayC8 1) = [(Date.subDays todayC8 1, 90)] ∧
    max 0 (runningLiquidity todayC8 100 txsC8 1) = 100 ∧
    (90 : Money) ≠ 100 :=
  ⟨by decide, by with_unfolding_all rfl, by with_unfolding_all rfl,
   of_decide_eq_true (by with_unfolding_all rfl)⟩

theorem liquidity_trend_formula_witness :
    5 ≤ txsC8.length ∧
    get_liquidity_trend todayC8 100 txsC8 3 =
      sortByDate ((todayC8, 100) ::
        (List.range (3 - 1)).map (fun k =>
          (todayC8.subDays (k + 1),
           max 0 (runningLiquidity todayC8 100 txsC8 (k + 1) + trendVariation (k + 1))))) :=
  ⟨by decide, liquidity_trend_formula todayC8 100 txsC8 3 (by decide)⟩

end FletFinance
